import Mathlib

/-!
Verification development for the Cloud Hypervisor VM lifecycle manager
(`src/vmm/sandbox/src/cloud_hypervisor/mod.rs` of the kuasar repository).

The Rust code is embedded shallowly: the `CloudHypervisorVM` struct becomes a
Lean structure, each lifecycle method becomes a pure Lean function over that
structure, and every OS-level or collaborator effect (directory creation,
process spawning, child pid query, control-plane client connection, signal
delivery, exit-notification arrival, `/proc` thread introspection) is supplied
through an explicit environment record `Env` of call outcomes.  Signal
deliveries performed by `stop` are additionally returned as an event list so
that "which pids were signaled" is statable.

Parts of the repository that the file under `src/` calls but whose sources are
not under `src/` (the `utils` module, the device/config submodules, the `vm`
module) are modelled at their boundary: command-line rendering of the backend
configuration and of each device is an opaque function supplied by the
environment, device-info variants follow the spec's device-input list, and
`wait_channel` is modelled from the spec (see its doc comment).
-/

namespace Kuasar

/-- Error type as used by the lifecycle manager (`containerd_sandbox::error::Error`):
only the `NotFound` constructor and the catch-all `anyhow` conversion (`Other`)
occur in the embedded file. -/
inductive Error where
  | NotFound (msg : String)
  | Other (msg : String)
deriving DecidableEq, Repr

/-- OS errno values relevant to signal delivery; `ESRCH` is the only one the
source inspects (`nix::errno::Errno::ESRCH`). -/
inductive Errno where
  | ESRCH
  | EPERM
  | EINVAL
deriving DecidableEq, Repr

/-- Termination signal chosen by `stop`: `SIGKILL` when forced, `SIGTERM` otherwise. -/
inductive Signal where
  | SIGKILL
  | SIGTERM
deriving DecidableEq, Repr

/-- Outcome of one `signal::kill` invocation. -/
inductive KillRes where
  | ok
  | err (e : Errno)
deriving DecidableEq, Repr

/-- Process identity set (`Pids` from the `vm` module): the authoritative VMM
pid plus the affiliated pids (for example the virtiofsd daemon).  Pids are
`u32` in the source, embedded as `Nat`. -/
structure Pids where
  vmm_pid : Option Nat
  affiliated_pids : List Nat
deriving DecidableEq, Repr

/-- Device-info input variants accepted by `attach`/`hot_attach` (`crate::device::DeviceInfo`,
fields as destructured in `mod.rs` and listed in the spec's external-interface
section).  The vhost-user and char payloads are unused by the embedded file, so
the constructors carry none.  Tap file descriptors (`OwnedFd`) are embedded as
raw descriptor numbers. -/
inductive DeviceInfo where
  | Block (id : String) (path : String) (read_only : Bool)
  | Tap (id : String) (name : String) (mac_address : String) (fds : List Nat)
  | Physical (id : String) (bdf : String)
  | VhostUser
  | Char
deriving DecidableEq, Repr

/-- Devices bound to the VM, as constructed by `attach`: `Disk::new`,
`VirtioNetDevice::new`, `VfioDevice::new` store their arguments (the device
submodule sources are not under `src/`; the spec lists exactly these
attributes). -/
inductive CloudHypervisorDevice where
  | disk (id : String) (path : String) (read_only : Bool) (direct : Bool)
  | virtioNet (id : String) (name : Option String) (mac_address : String) (fd_ints : List Int)
  | vfio (id : String) (bdf : String)
deriving DecidableEq, Repr

/-- Bus type returned by hot-plug operations; `mod.rs` always returns `BusType::PCI`. -/
inductive BusType where
  | PCI
  | MMIO
deriving DecidableEq, Repr

/-- Control-plane client handle (`ChClient`, opaque collaborator): its two
operations are modelled as outcome oracles. -/
structure ChClient where
  hotAttachFn : DeviceInfo → Except Error String
  hotDetachFn : String → Except Error Unit

/-- Backend configuration (`CloudHypervisorConfig`): the embedded file reads
`path`, `api_socket` and `debug`, and renders the rest through
`to_cmdline_params(prefix)`, whose source is not under `src/`; the rendering is
kept opaque as the function field `render` from the hyphen prefix to the flag
list. -/
structure CloudHypervisorConfig where
  path : String
  api_socket : String
  debug : Bool
  render : String → List String

/-- Companion filesystem daemon configuration (`VirtiofsdConfig`), fields as
used in `mod.rs`. -/
structure VirtiofsdConfig where
  path : String
  socket_path : String
  shared_dir : String
deriving DecidableEq, Repr

/-- The VM lifecycle manager state (`CloudHypervisorVM`).  The exit-notification
receiver is embedded as the currently observable `(exit code, timestamp)` pair. -/
structure CloudHypervisorVM where
  id : String
  config : CloudHypervisorConfig
  devices : List CloudHypervisorDevice
  netns : String
  base_dir : String
  agent_socket : String
  virtiofsd_config : VirtiofsdConfig
  wait_chan : Option (Nat × Int)
  client : Option ChClient
  fds : List Nat
  pids : Pids

/-- Environment of effect outcomes for one lifecycle call: each field is the
result the OS or a collaborator would deliver at the corresponding call site. -/
structure Env where
  baseDirRes : Except String Unit
  vfsdDirRes : Except String Unit
  vfsdNetnsRes : Except String Unit
  vfsdSpawnRes : Except String Unit
  vfsdChildId : Option Nat
  cmdFdRes : Except String Unit
  vmmNetnsRes : Except String Unit
  vmmSpawnRes : Except String Unit
  vmmChildId : Option Nat
  clientRes : Except Error ChClient
  deviceRender : CloudHypervisorDevice → String → List String
  kill : Nat → Signal → KillRes
  waitArrived : Bool

/-- Modelled from the spec: `wait_channel` lives in the `utils` module, which is
not under `src/`.  The spec states the 10-second stop confirmation window is a
soft timeout — "graceful-stop confirmation window elapsed — logged, not fatal,
call still returns success" — so both the exit-observed outcome and the
timeout outcome yield success. -/
def wait_channel (arrived : Bool) : Except Error Unit :=
  match arrived with
  | true => Except.ok ()
  | false => Except.ok ()

namespace CloudHypervisorVM

/-- Embeds `CloudHypervisorVM::pid`. -/
def pid (vm : CloudHypervisorVM) : Except Error Nat :=
  match vm.pids.vmm_pid with
  | none => Except.error (Error.Other "empty pid from vmm_pid")
  | some p => Except.ok p

/-- Embeds `CloudHypervisorVM::get_client`. -/
def get_client (vm : CloudHypervisorVM) : Except Error ChClient :=
  match vm.client with
  | none => Except.error (Error.NotFound "cloud hypervisor client not inited")
  | some c => Except.ok c

/-- Embeds `CloudHypervisorVM::add_device`. -/
def add_device (vm : CloudHypervisorVM) (d : CloudHypervisorDevice) : CloudHypervisorVM :=
  { vm with devices := vm.devices ++ [d] }

/-- Embeds `CloudHypervisorVM::append_fd`: push the descriptor and return
`fds.len() - 1 + 3`. -/
def append_fd (vm : CloudHypervisorVM) (fd : Nat) : CloudHypervisorVM × Nat :=
  let vm' := { vm with fds := vm.fds ++ [fd] }
  (vm', vm'.fds.length - 1 + 3)

/-- Embeds `CloudHypervisorVM::wait_stop`: if a wait channel exists and its
current timestamp is zero, wait (up to the bound) on it via `wait_channel`. -/
def wait_stop (vm : CloudHypervisorVM) (env : Env) : Except Error Unit :=
  match vm.wait_chan with
  | some rx => if rx.2 = 0 then wait_channel env.waitArrived else Except.ok ()
  | none => Except.ok ()

/-- Embeds `VM::stop` for `CloudHypervisorVM`.  Besides the result, the list of
`signal::kill` invocations `(pid, signal)` actually performed is returned, in
order, so that signalling behaviour is statable. -/
def stop (vm : CloudHypervisorVM) (force : Bool) (env : Env) :
    Except Error Unit × List (Nat × Signal) :=
  let signal := if force then Signal.SIGKILL else Signal.SIGTERM
  let pids := vm.pids
  let step1 : Except Error Unit × List (Nat × Signal) :=
    match pids.vmm_pid with
    | some vmm_pid =>
      if 0 < vmm_pid then
        match env.kill vmm_pid signal with
        | KillRes.err e =>
          if e ≠ Errno.ESRCH then
            (Except.error (Error.Other "kill vmm process"), [(vmm_pid, signal)])
          else
            (Except.ok (), [(vmm_pid, signal)])
        | KillRes.ok => (wait_stop vm env, [(vmm_pid, signal)])
      else (Except.ok (), [])
    | none => (Except.ok (), [])
  match step1 with
  | (Except.error e, evs) => (Except.error e, evs)
  | (Except.ok _, evs) =>
    (Except.ok (),
      pids.affiliated_pids.foldl
        (fun acc a => if 0 < a then acc ++ [(a, signal)] else acc) evs)

/-- Outcome of `attach`: the source either returns `Ok(())` with the updated
state, or diverges through the `todo!` / `unimplemented!` panic macros, which
is embedded as `panicked` with the macro's panic message. -/
inductive AttachOutcome where
  | ok (vm : CloudHypervisorVM)
  | panicked (msg : String)

/-- Embeds `VM::attach` for `CloudHypervisorVM`. -/
def attach (vm : CloudHypervisorVM) (device_info : DeviceInfo) : AttachOutcome :=
  match device_info with
  | DeviceInfo.Block id path read_only =>
    AttachOutcome.ok (add_device vm (CloudHypervisorDevice.disk id path read_only true))
  | DeviceInfo.Tap id name mac_address fds =>
    let st := fds.foldl
      (fun (p : CloudHypervisorVM × List Int) fd =>
        let q := append_fd p.1 fd
        (q.1, p.2 ++ [(q.2 : Int)]))
      (vm, [])
    AttachOutcome.ok (add_device st.1
      (CloudHypervisorDevice.virtioNet id (some name) mac_address st.2))
  | DeviceInfo.Physical id bdf =>
    AttachOutcome.ok (add_device vm (CloudHypervisorDevice.vfio id bdf))
  | DeviceInfo.VhostUser => AttachOutcome.panicked "not yet implemented"
  | DeviceInfo.Char => AttachOutcome.panicked "not implemented"

/-- Embeds `VM::hot_attach` for `CloudHypervisorVM`; the (unchanged) state is
returned alongside the result so that state preservation is statable. -/
def hot_attach (vm : CloudHypervisorVM) (device_info : DeviceInfo) :
    Except Error (BusType × String) × CloudHypervisorVM :=
  match get_client vm with
  | Except.error e => (Except.error e, vm)
  | Except.ok client =>
    match client.hotAttachFn device_info with
    | Except.error e => (Except.error e, vm)
    | Except.ok addr => (Except.ok (BusType.PCI, addr), vm)

/-- Embeds `VM::hot_detach` for `CloudHypervisorVM`. -/
def hot_detach (vm : CloudHypervisorVM) (id : String) :
    Except Error Unit × CloudHypervisorVM :=
  match get_client vm with
  | Except.error e => (Except.error e, vm)
  | Except.ok client =>
    match client.hotDetachFn id with
    | Except.error e => (Except.error e, vm)
    | Except.ok _ => (Except.ok (), vm)

/-- Embeds `CloudHypervisorVM::start_virtiofsd`: ensure the shared directory,
enter the netns, spawn the daemon, read its pid (the background stdout/stderr
drain and `spawn_wait` supervision have no effect on the manager's state). -/
def start_virtiofsd (_vm : CloudHypervisorVM) (env : Env) : Except Error Nat :=
  match env.vfsdDirRes with
  | Except.error e => Except.error (Error.Other e)
  | Except.ok _ =>
    match env.vfsdNetnsRes with
    | Except.error e => Except.error (Error.Other e)
    | Except.ok _ =>
      match env.vfsdSpawnRes with
      | Except.error e =>
        Except.error (Error.Other ("failed to spawn virtiofsd command: " ++ e))
      | Except.ok _ =>
        match env.vfsdChildId with
        | none => Except.error (Error.Other "the virtiofsd has been polled to completion")
        | some p => Except.ok p

/-- The launch parameter sequence built inside `start` (lines 167–175 of
`mod.rs`): backend configuration rendered with the `--` prefix, extended by
each bound device rendered with the `--` prefix in registration order, then
the single-hyphen `-vv` verbosity flag pushed when `config.debug` is set. -/
def launchParams (vm : CloudHypervisorVM) (env : Env) : List String :=
  let params := vm.config.render "--"
  let params := vm.devices.foldl (fun acc d => acc ++ env.deviceRender d "--") params
  if vm.config.debug then params ++ ["-vv"] else params

/-- Record of the `stop` invocation performed as rollback inside `start`. -/
structure StopCall where
  force : Bool
  res : Except Error Unit
  events : List (Nat × Signal)

/-- Result of a `start` call: the returned value, the state after the call, the
argument list handed to the VMM command (when command construction was
reached), and the rollback `stop` call (when one was triggered). -/
structure StartOut where
  ret : Except Error Nat
  vm : CloudHypervisorVM
  vmmParams : Option (List String)
  rollback : Option StopCall

/-- Embeds `VM::start` for `CloudHypervisorVM`: ensure the base directory,
start virtiofsd and record its pid as affiliated, build the launch parameters,
drain the inherited descriptors into the command, spawn the VMM, record its
pid and a fresh exit-notification channel, then connect the control-plane
client; on connection failure run `stop(force=true)` as rollback and return
the original connection error whether or not the rollback succeeded. -/
def start (vm : CloudHypervisorVM) (env : Env) : StartOut :=
  match env.baseDirRes with
  | Except.error e => ⟨Except.error (Error.Other e), vm, none, none⟩
  | Except.ok _ =>
    match start_virtiofsd vm env with
    | Except.error e => ⟨Except.error e, vm, none, none⟩
    | Except.ok virtiofsd_pid =>
      let vm1 := { vm with pids := { vm.pids with
        affiliated_pids := vm.pids.affiliated_pids ++ [virtiofsd_pid] } }
      let params := launchParams vm1 env
      let vm2 := { vm1 with fds := [] }
      match env.cmdFdRes with
      | Except.error e => ⟨Except.error (Error.Other e), vm2, some params, none⟩
      | Except.ok _ =>
        match env.vmmNetnsRes with
        | Except.error e => ⟨Except.error (Error.Other e), vm2, some params, none⟩
        | Except.ok _ =>
          match env.vmmSpawnRes with
          | Except.error e =>
            ⟨Except.error (Error.Other ("failed to spawn cloud hypervisor command: " ++ e)),
              vm2, some params, none⟩
          | Except.ok _ =>
            let pid := env.vmmChildId
            let vm3 := { vm2 with
              pids := { vm2.pids with vmm_pid := pid },
              wait_chan := some (0, 0) }
            match env.clientRes with
            | Except.ok c =>
              ⟨Except.ok (pid.getD 0), { vm3 with client := some c }, some params, none⟩
            | Except.error e =>
              let rb := stop vm3 true env
              ⟨Except.error e, vm3, some params, some ⟨true, rb.1, rb.2⟩⟩

end CloudHypervisorVM

/-- One entry of the `/proc/<pid>/task` listing as consumed by `vcpus`: the
thread id and the thread's command name from its stat, `none` when the stat
read failed (such tasks are skipped by the source's `.ok()?`).  Command names
are embedded at the character level. -/
structure TaskInfo where
  tid : Int
  stat : Option (List Char)
deriving DecidableEq, Repr

/-- The recognized virtual-CPU thread-name prefix (`VCPU_PREFIX = "vcpu"`),
at the character level. -/
def vcpuPrefixChars : List Char := ['v', 'c', 'p', 'u']

/-- Rust `comm.strip_prefix(VCPU_PREFIX)`: the remainder after the `vcpu`
characters when they lead the name, failure otherwise. -/
def stripVcpu (c : List Char) : Option (List Char) :=
  if vcpuPrefixChars.isPrefixOf c then some (c.drop vcpuPrefixChars.length)
  else none

/-- Rust `str::parse` to an unsigned integer, modelling the numeric-suffix
parse of the vcpu index: a nonempty all-digit string denotes its decimal
value, anything else fails. -/
def parseNatDigits (s : List Char) : Option Nat :=
  if s ≠ [] ∧ s.all Char.isDigit then
    some (s.foldl (fun n c => n * 10 + (c.toNat - 48)) 0)
  else none

/-- Per-task body of the `filter_map` inside `vcpus`: skipped iterator errors
are `none` list entries, then the stat read, prefix strip and index parse each
shortcut to `none`. -/
def vcpuEntry (t? : Option TaskInfo) : Option (Nat × Int) :=
  match t? with
  | none => none
  | some t =>
    match t.stat with
    | none => none
    | some comm =>
      match stripVcpu comm with
      | none => none
      | some rest =>
        match parseNatDigits rest with
        | none => none
        | some idx => some (idx, t.tid)

namespace CloudHypervisorVM

/-- Embeds `VM::vcpus` for `CloudHypervisorVM`: requires the authoritative pid,
then introspects the process's task list (`procTasks` is the `/proc` oracle;
`Except.error` covers both `Process::new` and `.tasks()` failure, and `none`
items are the per-task iterator errors skipped by `.flatten()`).  The
index→thread-id map is embedded as the list of collected entries. -/
def vcpus (vm : CloudHypervisorVM)
    (procTasks : Except String (List (Option TaskInfo))) :
    Except Error (List (Nat × Int)) :=
  match vm.pid with
  | Except.error e => Except.error e
  | Except.ok _ =>
    match procTasks with
    | Except.error e => Except.error (Error.Other ("failed to get process " ++ e))
    | Except.ok tasks => Except.ok (tasks.filterMap vcpuEntry)

end CloudHypervisorVM

/-- Specification-side description of one vcpu map entry, following the spec's
words: some listed task's stat read succeeded, its command name is the
recognized vcpu prefix followed by a numeric suffix denoting index `i`, and
`tid` is that task's thread id. -/
def VcpuSpecEntry (tasks : List (Option TaskInfo)) (i : Nat) (tid : Int) : Prop :=
  ∃ t, some t ∈ tasks ∧ ∃ s, t.stat = some (vcpuPrefixChars ++ s) ∧
    parseNatDigits s = some i ∧ t.tid = tid

/-- Payload of one tap-device `attach` call, as destructured from
`DeviceInfo::Tap` in `mod.rs`. -/
structure TapSpec where
  id : String
  name : String
  mac_address : String
  fds : List Nat
deriving DecidableEq, Repr

/-- The `DeviceInfo` carried by a tap payload. -/
def TapSpec.toInfo (t : TapSpec) : DeviceInfo :=
  DeviceInfo.Tap t.id t.name t.mac_address t.fds

/-- Recorded tap reference indices of a bound device (the `fd_ints` handed to
`VirtioNetDevice::new`); devices of other kinds record none. -/
def deviceFdInts : CloudHypervisorDevice → List Int
  | CloudHypervisorDevice.virtioNet _ _ _ fd_ints => fd_ints
  | _ => []

namespace CloudHypervisorVM

/-- A sequence of `attach` calls performed in order, stopping at the first
panic (control never reaches later calls once a call diverges). -/
def attachAll (vm : CloudHypervisorVM) (infos : List DeviceInfo) : AttachOutcome :=
  infos.foldl
    (fun o di =>
      match o with
      | AttachOutcome.ok v => v.attach di
      | AttachOutcome.panicked m => AttachOutcome.panicked m)
    (AttachOutcome.ok vm)

end CloudHypervisorVM

/-- Concrete backend configuration used by witnesses: debug enabled, rendering
to a two-flag command line. -/
def cfg0 : CloudHypervisorConfig :=
  ⟨"/usr/bin/cloud-hypervisor", "/run/kuasar/api.sock", true,
    fun p => [p ++ "kernel", "vmlinux"]⟩

/-- Concrete virtiofsd configuration used by witnesses. -/
def vfsdCfg0 : VirtiofsdConfig :=
  ⟨"/usr/bin/virtiofsd", "/run/kuasar/virtiofs.sock", "/run/kuasar/shared"⟩

/-- Concrete control-plane client used by witnesses. -/
def client0 : ChClient :=
  ⟨fun _ => Except.ok "0000:00:04.0", fun _ => Except.ok ()⟩

/-- Concrete freshly-constructed VM instance used by witnesses: no devices, no
client, no descriptors, no pids. -/
def vm0 : CloudHypervisorVM :=
  ⟨"sandbox-1", cfg0, [], "/var/run/netns/ns0", "/run/kuasar", "", vfsdCfg0,
    none, none, [], ⟨none, []⟩⟩

/-- Concrete started VM instance used by witnesses: authoritative pid 1234,
affiliated virtiofsd pid 777, exit channel present and not yet fired. -/
def vmRunning : CloudHypervisorVM :=
  { vm0 with pids := ⟨some 1234, [777]⟩, wait_chan := some (0, 0) }

/-- Concrete all-success environment used by witnesses. -/
def env0 : Env :=
  ⟨Except.ok (), Except.ok (), Except.ok (), Except.ok (), some 777,
    Except.ok (), Except.ok (), Except.ok (), some 1234, Except.ok client0,
    fun _ p => [p ++ "net"], fun _ _ => KillRes.ok, false⟩

/-- Environment whose control-plane client connection fails. -/
def envClientFail : Env :=
  { env0 with clientRes := Except.error (Error.Other "connection refused") }

/-- Environment whose signal delivery reports the process absent. -/
def envEsrch : Env :=
  { env0 with kill := fun _ _ => KillRes.err Errno.ESRCH }

/-- Environment whose signal delivery fails with a non-absence error. -/
def envEperm : Env :=
  { env0 with kill := fun _ _ => KillRes.err Errno.EPERM }

/-- Environment whose VMM spawn fails. -/
def envSpawnFail : Env :=
  { env0 with vmmSpawnRes := Except.error "no such file or directory" }

/-- Environment whose descriptor setup for the VMM command fails. -/
def envFdFail : Env :=
  { env0 with cmdFdRes := Except.error "bad file descriptor" }

/-- Concrete task listing used by witnesses: two vcpu threads and one
unrelated thread. -/
def tasks0 : List (Option TaskInfo) :=
  [some ⟨100, some ['v', 'c', 'p', 'u', '0']⟩,
   some ⟨101, some ['v', 'c', 'p', 'u', '1']⟩,
   some ⟨102, some ['c', 'l', 'h', '-', 'i', 'o']⟩]

/-- Concrete tap payloads used by witnesses: two taps supplying three
descriptors in total. -/
def taps0 : List TapSpec :=
  [⟨"tap0", "eth0", "96:0e:aa:02:01:01", [33, 34]⟩,
   ⟨"tap1", "eth1", "96:0e:aa:02:01:02", [35]⟩]

/-- Helper: `wait_stop` always succeeds, because the confirmation wait is a
soft timeout (see `wait_channel`). -/
theorem wait_stop_ok (vm : CloudHypervisorVM) (env : Env) :
    vm.wait_stop env = Except.ok () := by
  unfold CloudHypervisorVM.wait_stop wait_channel
  cases vm.wait_chan with
  | none => rfl
  | some rx =>
    by_cases h : rx.2 = 0
    · simp only [h, if_true]
      cases env.waitArrived <;> rfl
    · simp [h]

/-- Helper: the affiliated-pid signalling loop of `stop` appends one event per
strictly positive affiliated pid, in order. -/
theorem affiliated_fold_eq (l : List Nat) (sig : Signal) (init : List (Nat × Signal)) :
    l.foldl (fun acc a => if 0 < a then acc ++ [(a, sig)] else acc) init
      = init ++ (l.filter (fun a => decide (0 < a))).map (fun a => (a, sig)) := by
  induction l generalizing init with
  | nil => simp
  | cons a t ih => by_cases h : 0 < a <;> simp [h, ih]

/-- Helper: folding list extension equals appending the concatenation of the
pieces. -/
theorem foldl_extend_eq_join {α β : Type} (l : List α) (f : α → List β) (init : List β) :
    l.foldl (fun acc d => acc ++ f d) init = init ++ (l.map f).flatten := by
  induction l generalizing init with
  | nil => simp
  | cons a t ih => simp [ih]

/-- Helper: the descriptor-appending fold inside `attach`'s tap branch grows
the descriptor list by the supplied descriptors and records, for each, the
index it occupies in the grown list offset by 3. -/
theorem append_fd_fold (fl : List Nat) (vm : CloudHypervisorVM) (acc : List Int) :
    fl.foldl
      (fun (p : CloudHypervisorVM × List Int) fd =>
        let q := CloudHypervisorVM.append_fd p.1 fd
        (q.1, p.2 ++ [(q.2 : Int)]))
      (vm, acc)
    = ({ vm with fds := vm.fds ++ fl },
        acc ++ (List.range fl.length).map (fun j => ((vm.fds.length + j + 3 : Nat) : Int))) := by
  induction fl generalizing vm acc with
  | nil => simp
  | cons fd t ih =>
    simp only [List.foldl_cons, CloudHypervisorVM.append_fd] at ih ⊢
    rw [ih]
    simp only [Prod.mk.injEq]
    constructor
    · simp
    · simp only [List.length_append, List.length_cons, List.length_nil]
      have hlen : vm.fds.length + 1 - 1 + 3 = vm.fds.length + 3 := by omega
      rw [hlen]
      have hmap : ∀ j : Nat, ((vm.fds.length + 1 + j + 3 : Nat) : Int)
          = ((vm.fds.length + (j + 1) + 3 : Nat) : Int) := by
        intro j; congr 1; omega
      simp [List.range_succ_eq_map, List.map_map, Function.comp_def,
        Nat.succ_eq_add_one, hmap]

/-- Helper: one tap `attach` appends the supplied descriptors and binds a
virtio-net device recording, for each descriptor, its position in the grown
descriptor list offset by 3. -/
theorem attach_tap_eq (vm : CloudHypervisorVM) (t : TapSpec) :
    vm.attach t.toInfo = CloudHypervisorVM.AttachOutcome.ok
      { vm with
          fds := vm.fds ++ t.fds,
          devices := vm.devices ++
            [CloudHypervisorDevice.virtioNet t.id (some t.name) t.mac_address
              ((List.range t.fds.length).map
                (fun j => ((vm.fds.length + j + 3 : Nat) : Int)))] } := by
  simp only [CloudHypervisorVM.attach, TapSpec.toInfo]
  rw [append_fd_fold]
  rfl

/-- Helper: characterization of the prefix strip inside `vcpus`. -/
theorem stripVcpu_eq_some (c s : List Char) :
    stripVcpu c = some s ↔ c = vcpuPrefixChars ++ s := by
  unfold stripVcpu
  by_cases h : vcpuPrefixChars.isPrefixOf c
  · obtain ⟨u, hu⟩ := List.isPrefixOf_iff_prefix.mp h
    simp only [h, if_true, Option.some_inj]
    constructor
    · rintro rfl
      rw [← hu, List.drop_left]
    · intro hc
      rw [hc, List.drop_left]
  · simp only [h]
    constructor
    · intro hfalse
      exact absurd hfalse (by simp)
    · intro hc
      exact absurd (List.isPrefixOf_iff_prefix.mpr ⟨s, hc.symm⟩) h

/-- Helper: characterization of the per-task body of `vcpus`. -/
theorem vcpuEntry_eq_some (t? : Option TaskInfo) (i : Nat) (tid : Int) :
    vcpuEntry t? = some (i, tid) ↔
      ∃ t, t? = some t ∧ ∃ s, t.stat = some (vcpuPrefixChars ++ s) ∧
        parseNatDigits s = some i ∧ t.tid = tid := by
  cases t? with
  | none => simp [vcpuEntry]
  | some t =>
    simp only [Option.some.injEq, exists_eq_left']
    cases ht : t.stat with
    | none => simp [vcpuEntry, ht]
    | some comm =>
      cases hv : stripVcpu comm with
      | none =>
        simp only [vcpuEntry, ht, hv]
        constructor
        · intro h
          exact absurd h (by simp)
        · rintro ⟨s, hs, hpar, htid⟩
          have hss : stripVcpu comm = some s :=
            (stripVcpu_eq_some comm s).mpr (Option.some_inj.mp hs)
          rw [hv] at hss
          exact absurd hss (by simp)
      | some rest =>
        have hcomm : comm = vcpuPrefixChars ++ rest := (stripVcpu_eq_some comm rest).mp hv
        subst hcomm
        cases hp : parseNatDigits rest with
        | none =>
          simp only [vcpuEntry, ht, hv, hp]
          constructor
          · intro h
            exact absurd h (by simp)
          · rintro ⟨s, hs, hpar, htid⟩
            have hrs : rest = s := List.append_cancel_left (Option.some_inj.mp hs)
            rw [← hrs, hp] at hpar
            exact absurd hpar (by simp)
        | some idx =>
          simp only [vcpuEntry, ht, hv, hp, Option.some.injEq, Prod.mk.injEq]
          constructor
          · rintro ⟨hi, htid⟩
            exact ⟨rest, rfl, by rw [hp, hi], htid⟩
          · rintro ⟨s, hs, hpar, htid⟩
            have hrs : rest = s := List.append_cancel_left hs
            rw [← hrs, hp] at hpar
            exact ⟨Option.some_inj.mp hpar, htid⟩

/-- Claim C5: in every call to `stop`, no signal is ever sent to a process id that is
0 or absent: every performed `signal::kill` targets a strictly positive pid,
namely the set authoritative pid or a strictly positive affiliated pid. -/
theorem c5_stop_signals_only_positive_pids
    (vm : CloudHypervisorVM) (force : Bool) (env : Env) (p : Nat) (s : Signal)
    (h : (p, s) ∈ (vm.stop force env).2) :
    0 < p ∧ (vm.pids.vmm_pid = some p ∨ p ∈ vm.pids.affiliated_pids) := by
  have hafter : ∀ (init : List (Nat × Signal)) (sig : Signal),
      (p, s) ∈ vm.pids.affiliated_pids.foldl
        (fun acc a => if 0 < a then acc ++ [(a, sig)] else acc) init →
      (p, s) ∈ init ∨ (0 < p ∧ p ∈ vm.pids.affiliated_pids) := by
    intro init sig hmem
    rw [affiliated_fold_eq] at hmem
    rcases List.mem_append.mp hmem with hmem | hmem
    · exact Or.inl hmem
    · right
      obtain ⟨a, ha, heq⟩ := List.mem_map.mp hmem
      obtain ⟨ha1, ha2⟩ := List.mem_filter.mp ha
      obtain ⟨hpq, hsq⟩ := Prod.mk.injEq .. ▸ heq
      subst hpq
      exact ⟨of_decide_eq_true ha2, ha1⟩
  rcases hv : vm.pids.vmm_pid with _ | q
  · simp only [CloudHypervisorVM.stop, hv] at h
    rcases hafter _ _ h with h0 | h0
    · exact absurd h0 (by simp)
    · exact ⟨h0.1, Or.inr h0.2⟩
  · by_cases hq : 0 < q
    · rcases hk : env.kill q (if force then Signal.SIGKILL else Signal.SIGTERM) with _ | e
      · simp only [CloudHypervisorVM.stop, hv, hq, if_true, hk, wait_stop_ok] at h
        rcases hafter _ _ h with h0 | h0
        · simp only [List.mem_singleton, Prod.mk.injEq] at h0
          obtain ⟨rfl, _⟩ := h0
          exact ⟨hq, Or.inl rfl⟩
        · exact ⟨h0.1, Or.inr h0.2⟩
      · by_cases he : e = Errno.ESRCH
        · subst he
          simp only [CloudHypervisorVM.stop, hv, hq, if_true, hk, ne_eq,
            not_true_eq_false, if_false] at h
          rcases hafter _ _ h with h0 | h0
          · simp only [List.mem_singleton, Prod.mk.injEq] at h0
            obtain ⟨rfl, _⟩ := h0
            exact ⟨hq, Or.inl rfl⟩
          · exact ⟨h0.1, Or.inr h0.2⟩
        · simp only [CloudHypervisorVM.stop, hv, hq, if_true, hk, ne_eq, he,
            not_false_eq_true] at h
          simp only [List.mem_singleton, Prod.mk.injEq] at h
          obtain ⟨rfl, _⟩ := h
          exact ⟨hq, Or.inl rfl⟩
    · simp only [CloudHypervisorVM.stop, hv, hq, if_false] at h
      rcases hafter _ _ h with h0 | h0
      · exact absurd h0 (by simp)
      · exact ⟨h0.1, Or.inr h0.2⟩

/-- Claim C5 witness: on a running instance, the forced stop's first kill event hits
the authoritative pid 1234, which is positive and set. -/
theorem c5_witness :
    0 < 1234 ∧ (vmRunning.pids.vmm_pid = some 1234 ∨
      1234 ∈ vmRunning.pids.affiliated_pids) :=
  c5_stop_signals_only_positive_pids vmRunning true env0 1234 Signal.SIGKILL
    (by decide)

/-- Claim C2: when the termination signal is delivered successfully to the set,
strictly positive authoritative pid and the exit notification has not fired
(timestamp still 0) within the wait window, `stop` still returns success: the
confirmation timeout is soft. -/
theorem c2_stop_soft_timeout_returns_success
    (vm : CloudHypervisorVM) (force : Bool) (env : Env) (p : Nat) (code : Nat)
    (hp : vm.pids.vmm_pid = some p) (hpos : 0 < p)
    (hkill : env.kill p (if force then Signal.SIGKILL else Signal.SIGTERM) = KillRes.ok)
    (_hchan : vm.wait_chan = some (code, 0))
    (_hnotyet : env.waitArrived = false) :
    (vm.stop force env).1 = Except.ok () := by
  simp only [CloudHypervisorVM.stop, hp, hpos, if_true, hkill, wait_stop_ok]

/-- Claim C2 witness: forced stop of the running instance with delivered signal and
no exit notification within the window returns success. -/
theorem c2_witness : (vmRunning.stop true env0).1 = Except.ok () :=
  c2_stop_soft_timeout_returns_success vmRunning true env0 1234 0
    rfl (by decide) rfl rfl rfl

/-- Claim C6: `stop(force=true)` whose kill of the set, strictly positive
authoritative pid reports no-such-process returns success; any other
signal-delivery error makes it return an error. -/
theorem c6_stop_force_tolerates_only_esrch
    (vm : CloudHypervisorVM) (env : Env) (p : Nat)
    (hp : vm.pids.vmm_pid = some p) (hpos : 0 < p) :
    (env.kill p Signal.SIGKILL = KillRes.err Errno.ESRCH →
      (vm.stop true env).1 = Except.ok ()) ∧
    (∀ e, e ≠ Errno.ESRCH → env.kill p Signal.SIGKILL = KillRes.err e →
      (vm.stop true env).1 = Except.error (Error.Other "kill vmm process")) := by
  constructor
  · intro hk
    simp only [CloudHypervisorVM.stop, hp, hpos, if_true, hk, ne_eq,
      not_true_eq_false, if_false]
  · intro e he hk
    simp only [CloudHypervisorVM.stop, hp, hpos, if_true, hk, ne_eq, he,
      not_false_eq_true]

/-- Claim C6 witness: forced stop of the running instance succeeds when the kill
reports the process absent, and errors when the kill fails with EPERM. -/
theorem c6_witness :
    (vmRunning.stop true envEsrch).1 = Except.ok () ∧
    (vmRunning.stop true envEperm).1 = Except.error (Error.Other "kill vmm process") :=
  ⟨(c6_stop_force_tolerates_only_esrch vmRunning envEsrch 1234 rfl (by decide)).1 rfl,
   (c6_stop_force_tolerates_only_esrch vmRunning envEperm 1234 rfl (by decide)).2
     Errno.EPERM (by decide) rfl⟩

/-- Claim C1: when every step of `start` up to and including the VMM spawn succeeds
but the control-plane client connection fails, `start` triggers a
`stop(force=true)` rollback and returns the original connection error — for
every signal-delivery oracle, i.e. whether the rollback succeeds or fails. -/
theorem c1_start_client_failure_rolls_back_returns_original_error
    (vm : CloudHypervisorVM) (env : Env) (e : Error) (vpid : Nat)
    (h1 : env.baseDirRes = Except.ok ())
    (h2 : env.vfsdDirRes = Except.ok ())
    (h3 : env.vfsdNetnsRes = Except.ok ())
    (h4 : env.vfsdSpawnRes = Except.ok ())
    (h5 : env.vfsdChildId = some vpid)
    (h6 : env.cmdFdRes = Except.ok ())
    (h7 : env.vmmNetnsRes = Except.ok ())
    (h8 : env.vmmSpawnRes = Except.ok ())
    (h9 : env.clientRes = Except.error e) :
    (vm.start env).ret = Except.error e ∧
    ∃ rc, (vm.start env).rollback = some rc ∧ rc.force = true := by
  constructor
  · simp only [CloudHypervisorVM.start, CloudHypervisorVM.start_virtiofsd,
      h1, h2, h3, h4, h5, h6, h7, h8, h9]
  · simp only [CloudHypervisorVM.start, CloudHypervisorVM.start_virtiofsd,
      h1, h2, h3, h4, h5, h6, h7, h8, h9]
    exact ⟨_, rfl, rfl⟩

/-- Claim C1 witness: on the concrete fresh instance with a failing client
connection, `start` returns the original connection error and records a forced
rollback. -/
theorem c1_witness :
    (vm0.start envClientFail).ret = Except.error (Error.Other "connection refused") ∧
    ∃ rc, (vm0.start envClientFail).rollback = some rc ∧ rc.force = true :=
  c1_start_client_failure_rolls_back_returns_original_error vm0 envClientFail
    (Error.Other "connection refused") 777 rfl rfl rfl rfl rfl rfl rfl rfl rfl

/-- Claim C10: whenever `start` fails after virtiofsd was successfully spawned
(with a positive pid) but before the control-plane client connection step —
whether at the descriptor setup, at the namespace setup, or at the VMM spawn
itself — `start` returns an error, the daemon's pid stays recorded in the
affiliated list, no rollback is attempted, and a subsequent `stop` (of the
not-yet-started instance) still signals the daemon. -/
theorem c10_start_failure_before_client_keeps_daemon_pid
    (vm : CloudHypervisorVM) (env : Env) (v : Nat) (force : Bool)
    (h1 : env.baseDirRes = Except.ok ())
    (h2 : env.vfsdDirRes = Except.ok ())
    (h3 : env.vfsdNetnsRes = Except.ok ())
    (h4 : env.vfsdSpawnRes = Except.ok ())
    (h5 : env.vfsdChildId = some v)
    (hvpos : 0 < v)
    (hfail : (∃ m, env.cmdFdRes = Except.error m) ∨
             (∃ m, env.vmmNetnsRes = Except.error m) ∨
             (∃ m, env.vmmSpawnRes = Except.error m))
    (hvmm : vm.pids.vmm_pid = none) :
    (∃ m, (vm.start env).ret = Except.error (Error.Other m)) ∧
    (vm.start env).vm.pids.affiliated_pids = vm.pids.affiliated_pids ++ [v] ∧
    (vm.start env).rollback = none ∧
    (v, if force then Signal.SIGKILL else Signal.SIGTERM)
      ∈ (((vm.start env).vm).stop force env).2 := by
  rcases h6 : env.cmdFdRes with m6 | u6
  · refine ⟨⟨m6, ?_⟩, ?_, ?_, ?_⟩
    · simp only [CloudHypervisorVM.start, CloudHypervisorVM.start_virtiofsd,
        h1, h2, h3, h4, h5, h6]
    · simp only [CloudHypervisorVM.start, CloudHypervisorVM.start_virtiofsd,
        h1, h2, h3, h4, h5, h6]
    · simp only [CloudHypervisorVM.start, CloudHypervisorVM.start_virtiofsd,
        h1, h2, h3, h4, h5, h6]
    · simp only [CloudHypervisorVM.start, CloudHypervisorVM.start_virtiofsd,
        h1, h2, h3, h4, h5, h6,
        CloudHypervisorVM.stop, hvmm, affiliated_fold_eq, List.nil_append]
      rw [List.mem_map]
      refine ⟨v, ?_, rfl⟩
      rw [List.mem_filter]
      exact ⟨List.mem_append_right _ (List.mem_singleton_self v), decide_eq_true hvpos⟩
  · rcases h7 : env.vmmNetnsRes with m7 | u7
    · refine ⟨⟨m7, ?_⟩, ?_, ?_, ?_⟩
      · simp only [CloudHypervisorVM.start, CloudHypervisorVM.start_virtiofsd,
          h1, h2, h3, h4, h5, h6, h7]
      · simp only [CloudHypervisorVM.start, CloudHypervisorVM.start_virtiofsd,
          h1, h2, h3, h4, h5, h6, h7]
      · simp only [CloudHypervisorVM.start, CloudHypervisorVM.start_virtiofsd,
          h1, h2, h3, h4, h5, h6, h7]
      · simp only [CloudHypervisorVM.start, CloudHypervisorVM.start_virtiofsd,
          h1, h2, h3, h4, h5, h6, h7,
          CloudHypervisorVM.stop, hvmm, affiliated_fold_eq, List.nil_append]
        rw [List.mem_map]
        refine ⟨v, ?_, rfl⟩
        rw [List.mem_filter]
        exact ⟨List.mem_append_right _ (List.mem_singleton_self v), decide_eq_true hvpos⟩
    · rcases h8 : env.vmmSpawnRes with m8 | u8
      · refine ⟨⟨"failed to spawn cloud hypervisor command: " ++ m8, ?_⟩, ?_, ?_, ?_⟩
        · simp only [CloudHypervisorVM.start, CloudHypervisorVM.start_virtiofsd,
            h1, h2, h3, h4, h5, h6, h7, h8]
        · simp only [CloudHypervisorVM.start, CloudHypervisorVM.start_virtiofsd,
            h1, h2, h3, h4, h5, h6, h7, h8]
        · simp only [CloudHypervisorVM.start, CloudHypervisorVM.start_virtiofsd,
            h1, h2, h3, h4, h5, h6, h7, h8]
        · simp only [CloudHypervisorVM.start, CloudHypervisorVM.start_virtiofsd,
            h1, h2, h3, h4, h5, h6, h7, h8,
            CloudHypervisorVM.stop, hvmm, affiliated_fold_eq, List.nil_append]
          rw [List.mem_map]
          refine ⟨v, ?_, rfl⟩
          rw [List.mem_filter]
          exact ⟨List.mem_append_right _ (List.mem_singleton_self v), decide_eq_true hvpos⟩
      · rcases hfail with ⟨m, hm⟩ | ⟨m, hm⟩ | ⟨m, hm⟩
        · rw [h6] at hm
          exact absurd hm (by simp)
        · rw [h7] at hm
          exact absurd hm (by simp)
        · rw [h8] at hm
          exact absurd hm (by simp)

/-- Claim C10 witness: on the concrete fresh instance, both with a failing VMM
spawn and with a failing descriptor setup, the daemon pid 777 stays
affiliated, no rollback happens, and a later forced stop signals 777. -/
theorem c10_witness :
    ((∃ m, (vm0.start envSpawnFail).ret = Except.error (Error.Other m)) ∧
     (vm0.start envSpawnFail).vm.pids.affiliated_pids = vm0.pids.affiliated_pids ++ [777] ∧
     (vm0.start envSpawnFail).rollback = none ∧
     (777, if true then Signal.SIGKILL else Signal.SIGTERM)
       ∈ (((vm0.start envSpawnFail).vm).stop true envSpawnFail).2) ∧
    ((∃ m, (vm0.start envFdFail).ret = Except.error (Error.Other m)) ∧
     (vm0.start envFdFail).vm.pids.affiliated_pids = vm0.pids.affiliated_pids ++ [777] ∧
     (vm0.start envFdFail).rollback = none ∧
     (777, if true then Signal.SIGKILL else Signal.SIGTERM)
       ∈ (((vm0.start envFdFail).vm).stop true envFdFail).2) :=
  ⟨c10_start_failure_before_client_keeps_daemon_pid vm0 envSpawnFail 777 true
    rfl rfl rfl rfl rfl (by decide)
    (Or.inr (Or.inr ⟨"no such file or directory", rfl⟩)) rfl,
   c10_start_failure_before_client_keeps_daemon_pid vm0 envFdFail 777 true
    rfl rfl rfl rfl rfl (by decide)
    (Or.inl ⟨"bad file descriptor", rfl⟩) rfl⟩

/-- Claim C3 counterexample: on the concrete fresh instance, `attach` with the
vhost-user and char variants does not return a not-implemented error value to
the caller: it diverges through the `todo!` and `unimplemented!` panic macros
(which do crash the calling task). -/
theorem c3_counterexample :
    vm0.attach DeviceInfo.VhostUser
      = CloudHypervisorVM.AttachOutcome.panicked "not yet implemented" ∧
    vm0.attach DeviceInfo.Char
      = CloudHypervisorVM.AttachOutcome.panicked "not implemented" :=
  ⟨rfl, rfl⟩

/-- Claim C3 amended: for every state, `attach` on a vhost-user or char device-info
variant fails fast rather than silently succeeding, but by panicking with the
not-implemented panic messages (crashing the calling task), not by returning
an unsupported-operation error value. -/
theorem c3_amended_unsupported_variants_panic (vm : CloudHypervisorVM) :
    vm.attach DeviceInfo.VhostUser
      = CloudHypervisorVM.AttachOutcome.panicked "not yet implemented" ∧
    vm.attach DeviceInfo.Char
      = CloudHypervisorVM.AttachOutcome.panicked "not implemented" :=
  ⟨rfl, rfl⟩

/-- Claim C9: without a connected control-plane client, `hot_attach` and `hot_detach`
fail with the not-found error kind; and in all cases both leave the
bound-device list unchanged. -/
theorem c9_hot_plug_requires_client
    (vm : CloudHypervisorVM) (device_info : DeviceInfo) (id : String)
    (h : vm.client = none) :
    (∃ m, (vm.hot_attach device_info).1 = Except.error (Error.NotFound m)) ∧
    (∃ m, (vm.hot_detach id).1 = Except.error (Error.NotFound m)) ∧
    (∀ (vm2 : CloudHypervisorVM) (di2 : DeviceInfo),
      ((vm2.hot_attach di2).2).devices = vm2.devices) ∧
    (∀ (vm2 : CloudHypervisorVM) (id2 : String),
      ((vm2.hot_detach id2).2).devices = vm2.devices) := by
  refine ⟨⟨"cloud hypervisor client not inited", ?_⟩,
          ⟨"cloud hypervisor client not inited", ?_⟩, ?_, ?_⟩
  · simp [CloudHypervisorVM.hot_attach, CloudHypervisorVM.get_client, h]
  · simp [CloudHypervisorVM.hot_detach, CloudHypervisorVM.get_client, h]
  · intro vm2 di2
    unfold CloudHypervisorVM.hot_attach
    rcases hg : vm2.get_client with e | c
    · simp only [hg]
    · simp only [hg]
      rcases hc : c.hotAttachFn di2 with e2 | a <;> simp only [hc]
  · intro vm2 id2
    unfold CloudHypervisorVM.hot_detach
    rcases hg : vm2.get_client with e | c
    · simp only [hg]
    · simp only [hg]
      rcases hc : c.hotDetachFn id2 with e2 | a <;> simp only [hc]

/-- Claim C9 witness: the concrete fresh instance has no client; both hot-plug
operations fail with the not-found kind and the device list is untouched. -/
theorem c9_witness :
    (vm0.hot_attach DeviceInfo.VhostUser).1
        = Except.error (Error.NotFound "cloud hypervisor client not inited") ∧
    (vm0.hot_detach "dev-1").1
        = Except.error (Error.NotFound "cloud hypervisor client not inited") ∧
    ((vm0.hot_attach DeviceInfo.VhostUser).2).devices = vm0.devices := by
  have h := c9_hot_plug_requires_client vm0 DeviceInfo.VhostUser "dev-1" rfl
  exact ⟨rfl, rfl, h.2.2.1 vm0 DeviceInfo.VhostUser⟩

/-- Claim C4: a sequence of tap `attach` calls succeeds, appends exactly the supplied
descriptors in order to the inherited-descriptor list (so the list grows by
the total number supplied), appends one device per call, and the reference
indices recorded across the new devices are exactly the zero-based positions
of their descriptors in the grown list, each offset by 3. -/
theorem c4_attach_tap_descriptor_indices
    (vm : CloudHypervisorVM) (taps : List TapSpec) :
    ∃ vm' newDevs,
      vm.attachAll (taps.map TapSpec.toInfo) = CloudHypervisorVM.AttachOutcome.ok vm' ∧
      vm'.fds = vm.fds ++ (taps.map TapSpec.fds).flatten ∧
      vm'.devices = vm.devices ++ newDevs ∧
      (newDevs.map deviceFdInts).flatten
        = (List.range (taps.map TapSpec.fds).flatten.length).map
            (fun j => ((vm.fds.length + j + 3 : Nat) : Int)) := by
  induction taps generalizing vm with
  | nil =>
    exact ⟨vm, [], rfl, by simp, by simp, by simp⟩
  | cons t ts ih =>
    have hstep : vm.attachAll ((t :: ts).map TapSpec.toInfo)
        = CloudHypervisorVM.attachAll
            { vm with
                fds := vm.fds ++ t.fds,
                devices := vm.devices ++
                  [CloudHypervisorDevice.virtioNet t.id (some t.name) t.mac_address
                    ((List.range t.fds.length).map
                      (fun j => ((vm.fds.length + j + 3 : Nat) : Int)))] }
            (ts.map TapSpec.toInfo) := by
      simp only [CloudHypervisorVM.attachAll, List.map_cons, List.foldl_cons]
      rw [attach_tap_eq]
    obtain ⟨vm', newDevs, hall, hfds, hdevs, hidx⟩ :=
      ih { vm with
            fds := vm.fds ++ t.fds,
            devices := vm.devices ++
              [CloudHypervisorDevice.virtioNet t.id (some t.name) t.mac_address
                ((List.range t.fds.length).map
                  (fun j => ((vm.fds.length + j + 3 : Nat) : Int)))] }
    refine ⟨vm',
      CloudHypervisorDevice.virtioNet t.id (some t.name) t.mac_address
        ((List.range t.fds.length).map
          (fun j => ((vm.fds.length + j + 3 : Nat) : Int))) :: newDevs,
      hstep.trans hall, ?_, ?_, ?_⟩
    · rw [hfds]
      simp
    · rw [hdevs]
      simp
    · have hmap : ∀ j : Nat,
          ((vm.fds.length + t.fds.length + j + 3 : Nat) : Int)
            = ((vm.fds.length + (t.fds.length + j) + 3 : Nat) : Int) := by
        intro j
        congr 1
        omega
      simp only [List.map_cons, List.flatten_cons, deviceFdInts, hidx]
      simp only [List.map_cons, List.flatten_cons, List.length_append,
        List.range_add, List.map_append, List.map_map, Function.comp_def]
      simp [hmap]

/-- Claim C7 counterexample: with debug enabled the extra verbosity flag appended to
the launch command is the single-hyphen `-vv`, not a double-hyphen long-form
flag (whereas backend flags do carry the `--` prefix). -/
theorem c7_counterexample :
    (vm0.start env0).vmmParams = some ["--kernel", "vmlinux", "-vv"] ∧
    vm0.config.debug = true ∧
    "-vv".data.take 2 ≠ ['-', '-'] ∧
    "--kernel".data.take 2 = ['-', '-'] :=
  ⟨rfl, rfl, by decide, by decide⟩

/-- Claim C7 amended: whenever `start` reaches VMM command construction, the launch
parameter sequence is exactly the backend configuration rendered with the `--`
prefix, then each bound device rendered with the `--` prefix in registration
order, then the single-hyphen `-vv` verbosity flag appended if and only if the
debug option is enabled (with zero devices: backend flags plus the optional
debug flag only). -/
theorem c7_amended_launch_param_sequence
    (vm : CloudHypervisorVM) (env : Env) (vpid : Nat)
    (h1 : env.baseDirRes = Except.ok ())
    (h2 : env.vfsdDirRes = Except.ok ())
    (h3 : env.vfsdNetnsRes = Except.ok ())
    (h4 : env.vfsdSpawnRes = Except.ok ())
    (h5 : env.vfsdChildId = some vpid) :
    (vm.start env).vmmParams = some
      (vm.config.render "--"
        ++ (vm.devices.map (fun d => env.deviceRender d "--")).flatten
        ++ (if vm.config.debug then ["-vv"] else [])) := by
  have hparams : ∀ vmx : CloudHypervisorVM, vmx.config = vm.config →
      vmx.devices = vm.devices →
      CloudHypervisorVM.launchParams vmx env
        = vm.config.render "--"
          ++ (vm.devices.map (fun d => env.deviceRender d "--")).flatten
          ++ (if vm.config.debug then ["-vv"] else []) := by
    intro vmx hc hd
    simp only [CloudHypervisorVM.launchParams, hc, hd, foldl_extend_eq_join]
    by_cases hdbg : vm.config.debug
    · simp [hdbg]
    · simp [hdbg]
  simp only [CloudHypervisorVM.start, CloudHypervisorVM.start_virtiofsd,
    h1, h2, h3, h4, h5]
  rcases h6 : env.cmdFdRes with e6 | u6 <;>
    rcases h7 : env.vmmNetnsRes with e7 | u7 <;>
      rcases h8 : env.vmmSpawnRes with e8 | u8 <;>
        rcases h9 : env.clientRes with e9 | c9 <;>
          simp only [h6, h7, h8, h9] <;>
            exact congrArg some (hparams _ rfl rfl)

/-- Claim C7 amended witness: the concrete fresh instance (zero devices, debug on)
launches with exactly the backend flags plus `-vv`. -/
theorem c7_witness :
    (vm0.start env0).vmmParams = some
      (vm0.config.render "--"
        ++ (vm0.devices.map (fun d => env0.deviceRender d "--")).flatten
        ++ (if vm0.config.debug then ["-vv"] else [])) :=
  c7_amended_launch_param_sequence vm0 env0 777 rfl rfl rfl rfl rfl

/-- Claim C8: when the process introspection succeeds, membership in the map
returned by `vcpus` holds exactly for pairs justified by a listed task whose
thread name is the vcpu prefix followed by a numeric suffix parsing to the
index (threads with unrelated names are excluded); and whenever the process
cannot be introspected, `vcpus` returns an error. -/
theorem c8_vcpus_exactly_vcpu_threads
    (vm : CloudHypervisorVM) (tasks : List (Option TaskInfo))
    (m : List (Nat × Int)) (i : Nat) (tid : Int)
    (hok : vm.vcpus (Except.ok tasks) = Except.ok m) :
    ((i, tid) ∈ m ↔ VcpuSpecEntry tasks i tid) ∧
    (∀ err, ∃ e, vm.vcpus (Except.error err) = Except.error e) := by
  constructor
  · unfold CloudHypervisorVM.vcpus at hok
    rcases hp : vm.pid with e | q
    · rw [hp] at hok
      exact absurd hok (by simp)
    · rw [hp] at hok
      simp only [Except.ok.injEq] at hok
      subst hok
      rw [List.mem_filterMap]
      unfold VcpuSpecEntry
      constructor
      · rintro ⟨t?, ht?, hent⟩
        obtain ⟨t, rfl, s, hs, hpar, htid⟩ := (vcpuEntry_eq_some t? i tid).mp hent
        exact ⟨t, ht?, s, hs, hpar, htid⟩
      · rintro ⟨t, ht, s, hs, hpar, htid⟩
        exact ⟨some t, ht, (vcpuEntry_eq_some (some t) i tid).mpr ⟨t, rfl, s, hs, hpar, htid⟩⟩
  · intro err
    unfold CloudHypervisorVM.vcpus
    rcases hp : vm.pid with e | q
    · exact ⟨e, rfl⟩
    · exact ⟨Error.Other ("failed to get process " ++ err), rfl⟩

/-- Claim C8 witness: on the concrete running instance whose threads are vcpu0,
vcpu1 and an unrelated clh-io thread, the returned map is [(0,100), (1,101)]:
entry (0,100) is derived from the spec-side description and entry (1,101) is
justified by it; the unrelated thread contributes nothing. -/
theorem c8_witness :
    ((0 : Nat), (100 : Int)) ∈ [((0 : Nat), (100 : Int)), (1, 101)] ∧
    VcpuSpecEntry tasks0 1 101 := by
  have h1 := (c8_vcpus_exactly_vcpu_threads vmRunning tasks0
    [(0, 100), (1, 101)] 0 100 rfl).1
  have h2 := (c8_vcpus_exactly_vcpu_threads vmRunning tasks0
    [(0, 100), (1, 101)] 1 101 rfl).1
  refine ⟨h1.mpr ?_, h2.mp (by decide)⟩
  exact ⟨⟨100, some ['v', 'c', 'p', 'u', '0']⟩, by decide, ['0'], by decide, by decide, rfl⟩

/-- Claim C3 amended witness: the amended statement instantiated at the
concrete fresh instance. -/
theorem c3_witness :
    vm0.attach DeviceInfo.VhostUser
      = CloudHypervisorVM.AttachOutcome.panicked "not yet implemented" ∧
    vm0.attach DeviceInfo.Char
      = CloudHypervisorVM.AttachOutcome.panicked "not implemented" :=
  c3_amended_unsupported_variants_panic vm0

/-- Claim C4 witness: the tap-sequence statement instantiated at the concrete
fresh instance with the concrete tap payloads. -/
theorem c4_witness :
    ∃ vm' newDevs,
      vm0.attachAll (taps0.map TapSpec.toInfo) = CloudHypervisorVM.AttachOutcome.ok vm' ∧
      vm'.fds = vm0.fds ++ (taps0.map TapSpec.fds).flatten ∧
      vm'.devices = vm0.devices ++ newDevs ∧
      (newDevs.map deviceFdInts).flatten
        = (List.range (taps0.map TapSpec.fds).flatten.length).map
            (fun j => ((vm0.fds.length + j + 3 : Nat) : Int)) :=
  c4_attach_tap_descriptor_indices vm0 taps0

end Kuasar
